import Mathlib

/-!
Verification development for the PyMOL MCP server (`pymol_server.py`).

The server is a flat list of request handlers, each of which reads the PyMOL
`cmd` handle from the lifespan context, performs one to three calls on it, and
formats the outcome (or the caught exception text) into a status string — or,
for `render_image`, an image payload.  The PyMOL engine itself is external, so
it is modelled as an oracle: a function from engine calls to either a returned
value or a raised exception text.  Each handler below is a direct translation
of the corresponding Python function; the trace of engine calls made and the
exception text caught by the handler's `except` clause are recorded
explicitly so that dispatch behaviour can be stated and proved.
-/

/-! ## Model of `os.path` (POSIX) -/

/-- Model of `os.path.isabs` on POSIX: a path is absolute iff it starts
with a slash. -/
def os_path_isabs (p : String) : Bool :=
  match p.data with
  | [] => false
  | c :: _ => c = '/'

/-- Model of `os.path.abspath` on POSIX: join a relative path onto the
current working directory (path normalisation is not modelled; the handlers
only call this on relative paths). -/
def os_path_abspath (cwd p : String) : String :=
  if os_path_isabs p then p else cwd ++ "/" ++ p

/-! ## Model of Python numeric formatting

PyMOL's measurement commands return floats which the handlers format with
`"%.2f"`-style interpolation (`{result:.2f}`).  The float value is modelled
as a rational number; `pyFixed2` renders it with exactly two digits after the
decimal point, rounding half to even as Python's `format` does.  All
arithmetic is done on the numerator/denominator so the function evaluates by
kernel reduction. -/

/-- Decimal digits of a positive natural, most significant first.  The first
argument is recursion fuel (`n` itself is always enough). -/
def natDigitsAux : Nat → Nat → List Char
  | 0, _ => []
  | fuel + 1, n =>
    if n = 0 then []
    else natDigitsAux fuel (n / 10) ++ [Nat.digitChar (n % 10)]

/-- Decimal rendering of a natural number. -/
def natToDec (n : Nat) : String :=
  if n = 0 then "0" else ⟨natDigitsAux n n⟩

/-- Decimal rendering of an integer. -/
def intToDec (i : Int) : String :=
  if i < 0 then "-" ++ natToDec i.natAbs else natToDec i.natAbs

/-- `q * 100` rounded to the nearest integer, ties to even: the number of
hundredths printed by `"%.2f"`. -/
def roundHalfEvenHundredths (q : Rat) : Int :=
  let n := q.num * 100
  let d := (q.den : Int)
  let f := n.fdiv d
  let r := n - f * d
  if 2 * r < d then f
  else if d < 2 * r then f + 1
  else if f % 2 = 0 then f else f + 1

/-- Model of Python's `"%.2f"` formatting of the value `q`. -/
def pyFixed2 (q : Rat) : String :=
  let n := roundHalfEvenHundredths q
  let sign := if q.num < 0 then "-" else ""
  let m := n.natAbs
  sign ++ natToDec (m / 100) ++ ⟨['.', Nat.digitChar (m / 10 % 10), Nat.digitChar (m % 10)]⟩

/-! ## The engine oracle -/

/-- One call on the injected PyMOL `cmd` object, with the argument values
passed by the handler. -/
inductive EngineCall where
  | fetch (pdb_id : String)
  | load (file_path : String)
  | show' (representation selection : String)
  | hide (representation selection : String)
  | color (color selection : String)
  | select (name selection : String)
  | enable (name : String)
  | disable (name : String)
  | zoom (selection : String)
  | distance (name atom1 atom2 : String)
  | angle (name atom1 atom2 atom3 : String)
  | dihedral (name atom1 atom2 atom3 atom4 : String)
  | label (selection text : String)
  | viewport (width height : Int)
  | draw
  | ray (width height : Int)
  | png (filename : String)
  | png_as_string
  | do' (command : String)
  | get_names (kind : String)
  | save (filename selection : String) (state : Int)
  | get_view
deriving DecidableEq

/-- The value each engine command returns on success.  Measurement commands
return a float (modelled as a rational), `select` returns the atom count,
`get_names` a list of names, `png_as_string` the PNG bytes; the remaining
commands return nothing the handlers use. -/
def EngineRet : EngineCall → Type
  | .distance _ _ _ => Rat
  | .angle _ _ _ _ => Rat
  | .dihedral _ _ _ _ _ => Rat
  | .select _ _ => Int
  | .get_names _ => List String
  | .png_as_string => List Nat
  | .get_view => String
  | _ => Unit

/-- The external engine: for each call it either returns a value or raises an
exception with the given text (`str(e)`). -/
structure Engine where
  run : (c : EngineCall) → Except String (EngineRet c)

/-- The lifespan context yielded by `pymol_lifespan`: either the `cmd` handle
(`{"cmd": cmd}`) or an initialization error (`{"error": msg, ...}`). -/
inductive LifespanCtx where
  | ok
  | err (msg : String)
deriving DecidableEq

/-- Model of the helper `get_cmd`: reading the handle raises a
`RuntimeError` whose text is `"PyMOL not properly initialized: {msg}"` when
the lifespan context recorded an initialization error. -/
def get_cmd : LifespanCtx → Except String Unit
  | .ok => Except.ok ()
  | .err m => Except.error ("PyMOL not properly initialized: " ++ m)

/-! ## Handler results -/

/-- PNG payloads: either the bytes handed back by `cmd.png_as_string`, or a
PNG freshly encoded (via PIL) from a solid-colour image of the given size. -/
inductive PngBytes where
  | fromEngine (data : List Nat)
  | pilEncoded (width height r g b : Nat)
deriving DecidableEq

/-- What a handler hands back to the MCP layer: a status string or an image
payload with its format tag. -/
inductive ToolResult where
  | str (s : String)
  | image (data : PngBytes) (format : String)
deriving DecidableEq

/-- `true` iff the result is a string. -/
def ToolResult.isStr : ToolResult → Bool
  | .str _ => true
  | _ => false

/-- The observable outcome of running one handler: the (unchanged) lifespan
context, the engine calls made in order, the exception text caught by the
handler's `except` clause (if any), and the returned value. -/
structure Handled where
  ctx : LifespanCtx
  trace : List EngineCall
  raised : Option String
  result : ToolResult
deriving DecidableEq

/-! ## Handler combinators

Almost every tool has the shape `try: cmd = get_cmd(ctx); v = cmd.X(args);
return ok(v) except Exception as e: return err(str(e))`.  `callTool` is that
shape for a single engine call, `twoCallTool` for two consecutive calls with
a shared error format.  Handlers with path rebinding or conditional calls are
written out explicitly below. -/

/-- A handler making one engine call `c`, formatting the returned value with
`okMsg` on success and the caught exception text with `errMsg` otherwise. -/
def callTool (ctx : LifespanCtx) (eng : Engine) (c : EngineCall)
    (okMsg : EngineRet c → String) (errMsg : String → String) : Handled :=
  match get_cmd ctx with
  | .error e => ⟨ctx, [], some e, .str (errMsg e)⟩
  | .ok _ =>
    match eng.run c with
    | .ok v => ⟨ctx, [c], none, .str (okMsg v)⟩
    | .error e => ⟨ctx, [c], some e, .str (errMsg e)⟩

/-- A handler making two consecutive engine calls with one error format. -/
def twoCallTool (ctx : LifespanCtx) (eng : Engine) (c₁ c₂ : EngineCall)
    (okMsg : String) (errMsg : String → String) : Handled :=
  match get_cmd ctx with
  | .error e => ⟨ctx, [], some e, .str (errMsg e)⟩
  | .ok _ =>
    match eng.run c₁ with
    | .error e => ⟨ctx, [c₁], some e, .str (errMsg e)⟩
    | .ok _ =>
      match eng.run c₂ with
      | .ok _ => ⟨ctx, [c₁, c₂], none, .str okMsg⟩
      | .error e => ⟨ctx, [c₁, c₂], some e, .str (errMsg e)⟩

/-! ## The request handlers (`@mcp.tool()` functions) -/

/-- `fetch_structure`: fetch a structure from the PDB. -/
def fetch_structure (ctx : LifespanCtx) (eng : Engine) (pdb_id : String) : Handled :=
  callTool ctx eng (.fetch pdb_id)
    (fun _ => "Successfully fetched " ++ pdb_id)
    (fun e => "Error fetching " ++ pdb_id ++ ": " ++ e)

/-- `load_structure`: load a structure from a local file, converting a
relative path to an absolute one first.  The rebinding happens after
`get_cmd`, so an initialization error is reported with the original path. -/
def load_structure (ctx : LifespanCtx) (eng : Engine) (cwd file_path : String) : Handled :=
  match get_cmd ctx with
  | .error e => ⟨ctx, [], some e, .str ("Error loading " ++ file_path ++ ": " ++ e)⟩
  | .ok _ =>
    let fp := if os_path_isabs file_path then file_path else os_path_abspath cwd file_path
    match eng.run (.load fp) with
    | .ok _ => ⟨ctx, [.load fp], none, .str ("Successfully loaded " ++ fp)⟩
    | .error e => ⟨ctx, [.load fp], some e, .str ("Error loading " ++ fp ++ ": " ++ e)⟩

/-- `show_representation`. -/
def show_representation (ctx : LifespanCtx) (eng : Engine) (representation selection : String) : Handled :=
  callTool ctx eng (.show' representation selection)
    (fun _ => "Showing " ++ representation ++ " for " ++ selection)
    (fun e => "Error showing " ++ representation ++ " for " ++ selection ++ ": " ++ e)

/-- `hide_representation`. -/
def hide_representation (ctx : LifespanCtx) (eng : Engine) (representation selection : String) : Handled :=
  callTool ctx eng (.hide representation selection)
    (fun _ => "Hiding " ++ representation ++ " for " ++ selection)
    (fun e => "Error hiding " ++ representation ++ " for " ++ selection ++ ": " ++ e)

/-- `color_selection`. -/
def color_selection (ctx : LifespanCtx) (eng : Engine) (color selection : String) : Handled :=
  callTool ctx eng (.color color selection)
    (fun _ => "Colored " ++ selection ++ " with " ++ color)
    (fun e => "Error coloring " ++ selection ++ " with " ++ color ++ ": " ++ e)

/-- `create_selection`: the atom count returned by `cmd.select` is embedded
in the success message. -/
def create_selection (ctx : LifespanCtx) (eng : Engine) (name selection : String) : Handled :=
  callTool ctx eng (.select name selection)
    (fun result => "Created selection \x27" ++ name ++ "\x27 for " ++ selection ++
      " with " ++ intToDec result ++ " atoms")
    (fun e => "Error creating selection \x27" ++ name ++ "\x27 for " ++ selection ++ ": " ++ e)

/-- `enable_object`. -/
def enable_object (ctx : LifespanCtx) (eng : Engine) (name : String) : Handled :=
  callTool ctx eng (.enable name)
    (fun _ => "Enabled " ++ name)
    (fun e => "Error enabling " ++ name ++ ": " ++ e)

/-- `disable_object`. -/
def disable_object (ctx : LifespanCtx) (eng : Engine) (name : String) : Handled :=
  callTool ctx eng (.disable name)
    (fun _ => "Disabled " ++ name)
    (fun e => "Error disabling " ++ name ++ ": " ++ e)

/-- `zoom_selection`. -/
def zoom_selection (ctx : LifespanCtx) (eng : Engine) (selection : String) : Handled :=
  callTool ctx eng (.zoom selection)
    (fun _ => "Zoomed on " ++ selection)
    (fun e => "Error zooming on " ++ selection ++ ": " ++ e)

/-- `measure_distance`: the float returned by `cmd.distance` is rendered
with `{result:.2f}` and an angstrom suffix. -/
def measure_distance (ctx : LifespanCtx) (eng : Engine) (atom1 atom2 name : String) : Handled :=
  callTool ctx eng (.distance name atom1 atom2)
    (fun result => "Distance between " ++ atom1 ++ " and " ++ atom2 ++ " is " ++
      pyFixed2 result ++ " Å")
    (fun e => "Error measuring distance: " ++ e)

/-- `measure_angle`. -/
def measure_angle (ctx : LifespanCtx) (eng : Engine) (atom1 atom2 atom3 name : String) : Handled :=
  callTool ctx eng (.angle name atom1 atom2 atom3)
    (fun result => "Angle between " ++ atom1 ++ ", " ++ atom2 ++ ", and " ++ atom3 ++
      " is " ++ pyFixed2 result ++ "°")
    (fun e => "Error measuring angle: " ++ e)

/-- `measure_dihedral`. -/
def measure_dihedral (ctx : LifespanCtx) (eng : Engine) (atom1 atom2 atom3 atom4 name : String) : Handled :=
  callTool ctx eng (.dihedral name atom1 atom2 atom3 atom4)
    (fun result => "Dihedral angle between " ++ atom1 ++ ", " ++ atom2 ++ ", " ++ atom3 ++
      ", and " ++ atom4 ++ " is " ++ pyFixed2 result ++ "°")
    (fun e => "Error measuring dihedral angle: " ++ e)

/-- `add_label`. -/
def add_label (ctx : LifespanCtx) (eng : Engine) (selection text : String) : Handled :=
  callTool ctx eng (.label selection text)
    (fun _ => "Added label \x27" ++ text ++ "\x27 to " ++ selection)
    (fun e => "Error adding label: " ++ e)

/-- `draw_image`: `cmd.viewport` then `cmd.draw`. -/
def draw_image (ctx : LifespanCtx) (eng : Engine) (width height : Int) : Handled :=
  twoCallTool ctx eng (.viewport width height) .draw
    ("Prepared OpenGL image with dimensions " ++ intToDec width ++ "x" ++ intToDec height)
    (fun e => "Error preparing image: " ++ e)

/-- `ray_trace`: `cmd.viewport` then `cmd.ray`. -/
def ray_trace (ctx : LifespanCtx) (eng : Engine) (width height : Int) : Handled :=
  twoCallTool ctx eng (.viewport width height) (.ray width height)
    ("Prepared ray-traced image with dimensions " ++ intToDec width ++ "x" ++ intToDec height)
    (fun e => "Error ray-tracing: " ++ e)

/-- `save_png`: resolve the filename, set the viewport, optionally ray-trace,
then write the PNG.  The error message does not mention the filename. -/
def save_png (ctx : LifespanCtx) (eng : Engine) (cwd filename : String)
    (width height : Int) (ray : Bool) : Handled :=
  match get_cmd ctx with
  | .error e => ⟨ctx, [], some e, .str ("Error saving PNG: " ++ e)⟩
  | .ok _ =>
    let fn := if os_path_isabs filename then filename else os_path_abspath cwd filename
    match eng.run (.viewport width height) with
    | .error e => ⟨ctx, [.viewport width height], some e, .str ("Error saving PNG: " ++ e)⟩
    | .ok _ =>
      if ray then
        match eng.run (.ray width height) with
        | .error e => ⟨ctx, [.viewport width height, .ray width height], some e,
            .str ("Error saving PNG: " ++ e)⟩
        | .ok _ =>
          match eng.run (.png fn) with
          | .ok _ => ⟨ctx, [.viewport width height, .ray width height, .png fn], none,
              .str ("Saved PNG image to " ++ fn)⟩
          | .error e => ⟨ctx, [.viewport width height, .ray width height, .png fn], some e,
              .str ("Error saving PNG: " ++ e)⟩
      else
        match eng.run (.png fn) with
        | .ok _ => ⟨ctx, [.viewport width height, .png fn], none,
            .str ("Saved PNG image to " ++ fn)⟩
        | .error e => ⟨ctx, [.viewport width height, .png fn], some e,
            .str ("Error saving PNG: " ++ e)⟩

/-- The blank 400x100 white PNG `render_image` builds with PIL when
rendering fails. -/
def blankErrorImage : ToolResult := .image (.pilEncoded 400 100 255 255 255) "png"

/-- `render_image`: set the viewport, optionally ray-trace, grab the PNG
bytes and return them as an image.  On any exception the computed
`error_msg` string is dropped and a blank white 400x100 PNG is returned
instead. -/
def render_image (ctx : LifespanCtx) (eng : Engine) (width height : Int)
    (ray_tr : Bool) : Handled :=
  match get_cmd ctx with
  | .error e => ⟨ctx, [], some e, blankErrorImage⟩
  | .ok _ =>
    match eng.run (.viewport width height) with
    | .error e => ⟨ctx, [.viewport width height], some e, blankErrorImage⟩
    | .ok _ =>
      if ray_tr then
        match eng.run (.ray width height) with
        | .error e => ⟨ctx, [.viewport width height, .ray width height], some e, blankErrorImage⟩
        | .ok _ =>
          match eng.run .png_as_string with
          | .ok png_data => ⟨ctx, [.viewport width height, .ray width height, .png_as_string],
              none, .image (.fromEngine png_data) "png"⟩
          | .error e => ⟨ctx, [.viewport width height, .ray width height, .png_as_string],
              some e, blankErrorImage⟩
      else
        match eng.run .png_as_string with
        | .ok png_data => ⟨ctx, [.viewport width height, .png_as_string],
            none, .image (.fromEngine png_data) "png"⟩
        | .error e => ⟨ctx, [.viewport width height, .png_as_string], some e, blankErrorImage⟩

/-- `run_command`: run a raw PyMOL command via `cmd.do`. -/
def run_command (ctx : LifespanCtx) (eng : Engine) (command : String) : Handled :=
  callTool ctx eng (.do' command)
    (fun _ => "Executed: " ++ command)
    (fun e => "Error executing \x27" ++ command ++ "\x27: " ++ e)

/-- `list_objects`. -/
def list_objects (ctx : LifespanCtx) (eng : Engine) : Handled :=
  callTool ctx eng (.get_names "objects")
    (fun objects =>
      if objects.isEmpty then "No objects currently loaded in PyMOL."
      else "Loaded objects:\n" ++ String.intercalate "\n" objects)
    (fun e => "Error listing objects: " ++ e)

/-- `list_selections`. -/
def list_selections (ctx : LifespanCtx) (eng : Engine) : Handled :=
  callTool ctx eng (.get_names "selections")
    (fun selections =>
      if selections.isEmpty then "No selections currently defined in PyMOL."
      else "Defined selections:\n" ++ String.intercalate "\n" selections)
    (fun e => "Error listing selections: " ++ e)

/-- `save_structure`: resolve the filename then `cmd.save`.  As in
`load_structure`, an initialization error is reported with the original
filename because the rebinding has not happened yet. -/
def save_structure (ctx : LifespanCtx) (eng : Engine) (cwd filename selection : String)
    (state : Int) : Handled :=
  match get_cmd ctx with
  | .error e => ⟨ctx, [], some e, .str ("Error saving to " ++ filename ++ ": " ++ e)⟩
  | .ok _ =>
    let fn := if os_path_isabs filename then filename else os_path_abspath cwd filename
    match eng.run (.save fn selection state) with
    | .ok _ => ⟨ctx, [.save fn selection state], none,
        .str ("Saved " ++ selection ++ " to " ++ fn)⟩
    | .error e => ⟨ctx, [.save fn selection state], some e,
        .str ("Error saving to " ++ fn ++ ": " ++ e)⟩

/-! ## The session-state resource (`@mcp.resource`) -/

/-- The text `get_pymol_state` assembles from the object list, selection
list, and the printed view matrix. -/
def assembleState (objects selections : List String) (view : String) : String :=
  let object_info := objects.map (fun obj => "Object: " ++ obj)
  let selection_info := selections.map (fun sel => "Selection: " ++ sel)
  let view_str := "View matrix: " ++ view
  let state_info := ["PyMOL Session State:"]
    ++ (if object_info.isEmpty then ["\nNo objects loaded."]
        else ["\nLoaded Objects:"] ++ object_info)
    ++ (if selection_info.isEmpty then ["\nNo selections defined."]
        else ["\nActive Selections:"] ++ selection_info)
    ++ ["\n" ++ view_str]
  String.intercalate "\n" state_info

/-- `get_pymol_state`: the resource imports `pymol.cmd` directly (modelled by
`imp`) instead of using the lifespan context, then reads objects, selections
and the view.  The view matrix is modelled by its printed form, which is all
the handler uses.  Returns the calls made, the exception caught (if any) and
the resulting text. -/
def get_pymol_state (imp : Except String Unit) (eng : Engine) :
    List EngineCall × Option String × ToolResult :=
  match imp with
  | .error e => ([], some e, .str ("Error: PyMOL not properly initialized: " ++ e))
  | .ok _ =>
    match eng.run (.get_names "objects") with
    | .error e => ([.get_names "objects"], some e,
        .str ("Error retrieving PyMOL state: " ++ e))
    | .ok objects =>
      match eng.run (.get_names "selections") with
      | .error e => ([.get_names "objects", .get_names "selections"], some e,
          .str ("Error retrieving PyMOL state: " ++ e))
      | .ok selections =>
        match eng.run .get_view with
        | .error e => ([.get_names "objects", .get_names "selections", .get_view],
            some e, .str ("Error retrieving PyMOL state: " ++ e))
        | .ok view => ([.get_names "objects", .get_names "selections", .get_view],
            none, .str (assembleState objects selections view))

/-! ## The exposed operations and the dispatcher -/

/-- One request to the server: a constructor per exposed operation (the 21
`@mcp.tool()` functions plus the `pymol://session/state` resource), carrying
the caller-supplied argument values. -/
inductive Request where
  | fetch_structure (pdb_id : String)
  | load_structure (file_path : String)
  | show_representation (representation selection : String)
  | hide_representation (representation selection : String)
  | color_selection (color selection : String)
  | create_selection (name selection : String)
  | enable_object (name : String)
  | disable_object (name : String)
  | zoom_selection (selection : String)
  | measure_distance (atom1 atom2 name : String)
  | measure_angle (atom1 atom2 atom3 name : String)
  | measure_dihedral (atom1 atom2 atom3 atom4 name : String)
  | add_label (selection text : String)
  | draw_image (width height : Int)
  | ray_trace (width height : Int)
  | save_png (filename : String) (width height : Int) (ray : Bool)
  | render_image (width height : Int) (ray_tr : Bool)
  | run_command (command : String)
  | list_objects
  | list_selections
  | save_structure (filename selection : String) (state : Int)
  | get_pymol_state

/-- `true` exactly for the rendering operation. -/
def Request.isRenderImage : Request → Bool
  | .render_image _ _ _ => true
  | _ => false

/-- The dispatcher: route one request to its handler.  `ctx` is the lifespan
context, `imp` models whether `from pymol import cmd` succeeds for the
resource (which bypasses the context), `eng` is the engine oracle and `cwd`
the process working directory. -/
def dispatch (req : Request) (ctx : LifespanCtx) (imp : Except String Unit)
    (eng : Engine) (cwd : String) : Handled :=
  match req with
  | .fetch_structure pdb_id => fetch_structure ctx eng pdb_id
  | .load_structure file_path => load_structure ctx eng cwd file_path
  | .show_representation r s => show_representation ctx eng r s
  | .hide_representation r s => hide_representation ctx eng r s
  | .color_selection c s => color_selection ctx eng c s
  | .create_selection n s => create_selection ctx eng n s
  | .enable_object n => enable_object ctx eng n
  | .disable_object n => disable_object ctx eng n
  | .zoom_selection s => zoom_selection ctx eng s
  | .measure_distance a1 a2 n => measure_distance ctx eng a1 a2 n
  | .measure_angle a1 a2 a3 n => measure_angle ctx eng a1 a2 a3 n
  | .measure_dihedral a1 a2 a3 a4 n => measure_dihedral ctx eng a1 a2 a3 a4 n
  | .add_label s t => add_label ctx eng s t
  | .draw_image w h => draw_image ctx eng w h
  | .ray_trace w h => ray_trace ctx eng w h
  | .save_png f w h r => save_png ctx eng cwd f w h r
  | .render_image w h r => render_image ctx eng w h r
  | .run_command c => run_command ctx eng c
  | .list_objects => list_objects ctx eng
  | .list_selections => list_selections ctx eng
  | .save_structure f s st => save_structure ctx eng cwd f s st
  | .get_pymol_state =>
    match get_pymol_state imp eng with
    | (tr, r, res) => ⟨ctx, tr, r, res⟩

/-- The full list of engine calls a request gives rise to when nothing
fails: each handler forwards its parameters to its engine command, except
that relative file paths are resolved against the working directory first. -/
def expectedCalls (cwd : String) : Request → List EngineCall
  | .fetch_structure pdb_id => [.fetch pdb_id]
  | .load_structure file_path =>
    [.load (if os_path_isabs file_path then file_path else os_path_abspath cwd file_path)]
  | .show_representation r s => [.show' r s]
  | .hide_representation r s => [.hide r s]
  | .color_selection c s => [.color c s]
  | .create_selection n s => [.select n s]
  | .enable_object n => [.enable n]
  | .disable_object n => [.disable n]
  | .zoom_selection s => [.zoom s]
  | .measure_distance a1 a2 n => [.distance n a1 a2]
  | .measure_angle a1 a2 a3 n => [.angle n a1 a2 a3]
  | .measure_dihedral a1 a2 a3 a4 n => [.dihedral n a1 a2 a3 a4]
  | .add_label s t => [.label s t]
  | .draw_image w h => [.viewport w h, .draw]
  | .ray_trace w h => [.viewport w h, .ray w h]
  | .save_png f w h r =>
    [.viewport w h] ++ (if r then [.ray w h] else [])
      ++ [.png (if os_path_isabs f then f else os_path_abspath cwd f)]
  | .render_image w h r =>
    [.viewport w h] ++ (if r then [.ray w h] else []) ++ [.png_as_string]
  | .run_command c => [.do' c]
  | .list_objects => [.get_names "objects"]
  | .list_selections => [.get_names "selections"]
  | .save_structure f s st =>
    [.save (if os_path_isabs f then f else os_path_abspath cwd f) s st]
  | .get_pymol_state => [.get_names "objects", .get_names "selections", .get_view]

/-! ## Prompt templates (`@mcp.prompt()` functions) -/

/-- The `basic_visualization` prompt. -/
def basic_visualization (pdb_id : String) : String :=
  "\nVisualize the protein structure with PDB ID " ++ pdb_id ++
  " in the following way:\n1. Fetch the structure\n2. Show it as cartoon representation\n" ++
  "3. Color by secondary structure\n4. Show sticks for all ligands\n" ++
  "5. Apply a white surface to the protein\n6. Zoom to center the view\n" ++
  "7. Render a high-quality image\n"

/-- The `binding_site_analysis` prompt. -/
def binding_site_analysis (pdb_id ligand_name : String) : String :=
  "\nAnalyze the binding site of ligand " ++ ligand_name ++ " in structure " ++ pdb_id ++
  ":\n1. Fetch the structure\n2. Show the protein as cartoon\n" ++
  "3. Select the ligand using \"resn " ++ ligand_name ++ "\"\n" ++
  "4. Show the ligand as sticks and color it in magenta\n" ++
  "5. Select residues within 5A of the ligand\n6. Show those residues as sticks\n" ++
  "7. Label them with their residue names and numbers\n" ++
  "8. Measure key interactions (distances) between the ligand and binding site residues\n" ++
  "9. Render a high-quality image of the binding site\n"

/-- The `custom_command_sequence` prompt. -/
def custom_command_sequence : String :=
  "\nPlease help me run a series of PyMOL commands to manipulate and visualize my molecule.\n" ++
  "I\x27ll provide the commands I want to run, and you can execute them one by one.\n\n" ++
  "For example:\n1. fetch 1dn2\n2. show cartoon\n3. color green, chain A\n" ++
  "4. color blue, chain B\n5. show sticks, resn ATP\n6. zoom\n7. render an image\n"

/-- The functions registered with `@mcp.prompt()`, in source order. -/
def registeredPrompts : List String :=
  ["basic_visualization", "binding_site_analysis", "custom_command_sequence"]

/-! ## The lifespan (`pymol_lifespan`) -/

/-- How initialization can go: the `import pymol` can fail, the
`pymol.finish_launching` call can fail, or everything succeeds. -/
inductive InitOutcome where
  | importFail (msg : String)
  | launchFail (msg : String)
  | initOk
deriving DecidableEq

/-- Events in one process lifetime: the import of `pymol`, the
`finish_launching` call that creates the engine instance, a `cmd.set`
configuration call, the serving of all requests against the yielded
context, and the `cmd.quit` teardown call. -/
inductive LifeEvent where
  | importPymol (success : Bool)
  | engineLaunch (success : Bool)
  | applySetting (name : String) (value : Int)
  | serveRequests (ctx : LifespanCtx)
  | engineQuit
deriving DecidableEq

/-- Model of the `pymol_lifespan` async context manager as the sequence of
events of one process lifetime.  On import failure the `except` clause
yields an error context and the `finally` clause cannot import `cmd`, so
`cmd.quit` is never reached; on launch failure the error context is served
and `cmd.quit` is still attempted; on success the two settings are applied,
the `cmd` handle is served, and `cmd.quit` runs at the end. -/
def pymol_lifespan : InitOutcome → List LifeEvent
  | .importFail m => [.importPymol false, .serveRequests (.err m)]
  | .launchFail m =>
    [.importPymol true, .engineLaunch false, .serveRequests (.err m), .engineQuit]
  | .initOk =>
    [.importPymol true, .engineLaunch true,
     .applySetting "retain_order" 1, .applySetting "pdb_use_ter_records" 1,
     .serveRequests .ok, .engineQuit]

/-- `true` for a successful `finish_launching` event. -/
def isLaunchOk : LifeEvent → Bool
  | .engineLaunch true => true
  | _ => false

/-- `true` for any `finish_launching` event (instance creation attempt). -/
def isLaunch : LifeEvent → Bool
  | .engineLaunch _ => true
  | _ => false

/-- `true` for the `cmd.quit` teardown event. -/
def isQuit : LifeEvent → Bool
  | .engineQuit => true
  | _ => false

/-- `true` for the request-serving phase. -/
def isServe : LifeEvent → Bool
  | .serveRequests _ => true
  | _ => false

/-! ## String and list predicates used in the statements -/

/-- `strStartsWith p s`: the string `s` begins with `p`. -/
def strStartsWith (p s : String) : Prop := ∃ t, s.data = p.data ++ t

/-- `strContainsStr s m`: the string `m` occurs contiguously inside `s`. -/
def strContainsStr (s m : String) : Prop := ∃ a b, s.data = a ++ m.data ++ b

/-- `initSeg l₁ l₂`: `l₁` is an initial segment of `l₂`. -/
def initSeg {α : Type} (l₁ l₂ : List α) : Prop := ∃ t, l₁ ++ t = l₂

/-- `twoDecimals s`: the string `s` ends in a decimal point followed by
exactly two digits, and has no other decimal point. -/
def twoDecimals (s : String) : Prop :=
  ∃ pre d₁ d₂, s.data = pre ++ ['.', d₁, d₂] ∧ ('.' ∈ pre → False) ∧
    d₁.isDigit = true ∧ d₂.isDigit = true

theorem isPrefixOf_exists {l₁ l₂ : List Char} (h : l₁.isPrefixOf l₂ = true) :
    ∃ t, l₂ = l₁ ++ t := by
  induction l₁ generalizing l₂ with
  | nil => exact ⟨l₂, rfl⟩
  | cons a as ih =>
    cases l₂ with
    | nil => simp [List.isPrefixOf] at h
    | cons b bs =>
      simp only [List.isPrefixOf, Bool.and_eq_true, beq_iff_eq] at h
      obtain ⟨t, ht⟩ := ih h.2
      exact ⟨t, by rw [h.1, ht]; simp⟩

theorem sw_dec (p s : String) (h : p.data.isPrefixOf s.data = true) :
    strStartsWith p s :=
  isPrefixOf_exists h

theorem sw_append {p s : String} (t : String) (h : strStartsWith p s) :
    strStartsWith p (s ++ t) := by
  obtain ⟨u, hu⟩ := h
  exact ⟨u ++ t.data, by rw [String.data_append, hu, List.append_assoc]⟩

theorem contains_append_end (s e : String) : strContainsStr (s ++ e) e :=
  ⟨s.data, [], by rw [String.data_append, List.append_nil]⟩

theorem contains_mem {s m : String} (h : strContainsStr s m) {c : Char}
    (hc : c ∈ m.data) : c ∈ s.data := by
  obtain ⟨a, b, hs⟩ := h
  rw [hs]
  simp only [List.mem_append]
  exact Or.inl (Or.inr hc)

theorem not_contains_of_missing_char {s m : String} (c : Char) (hm : c ∈ m.data)
    (hs : c ∉ s.data) : ¬ strContainsStr s m :=
  fun h => hs (contains_mem h hm)

theorem initSeg_nil {α : Type} (l : List α) : initSeg ([] : List α) l := ⟨l, rfl⟩

theorem initSeg_self {α : Type} (l : List α) : initSeg l l := ⟨[], by simp⟩

theorem initSeg_append {α : Type} (l t : List α) : initSeg l (l ++ t) := ⟨t, rfl⟩

theorem initSeg_length {α : Type} {l₁ l₂ : List α} (h : initSeg l₁ l₂) :
    l₁.length ≤ l₂.length := by
  obtain ⟨t, ht⟩ := h
  subst ht
  simp

/-! ## Concrete engines used for witnesses and counterexamples -/

/-- A default value of each engine command's return type. -/
def defaultRet : (c : EngineCall) → EngineRet c
  | .distance _ _ _ => (0 : Rat)
  | .angle _ _ _ _ => (0 : Rat)
  | .dihedral _ _ _ _ _ => (0 : Rat)
  | .select _ _ => (0 : Int)
  | .get_names _ => ([] : List String)
  | .png_as_string => ([] : List Nat)
  | .get_view => ""
  | .fetch _ => ()
  | .load _ => ()
  | .show' _ _ => ()
  | .hide _ _ => ()
  | .color _ _ => ()
  | .enable _ => ()
  | .disable _ => ()
  | .zoom _ => ()
  | .label _ _ => ()
  | .viewport _ _ => ()
  | .draw => ()
  | .ray _ _ => ()
  | .png _ => ()
  | .do' _ => ()
  | .save _ _ _ => ()

/-- An engine on which every call succeeds with a default value. -/
def engAllOk : Engine := ⟨fun c => Except.ok (defaultRet c)⟩

/-- An engine on which every call raises with the given text. -/
def engAllFail (m : String) : Engine := ⟨fun _ => Except.error m⟩

/-- An engine whose measurement commands return `3.456` and everything else
succeeds with a default value. -/
def engMeasure : Engine :=
  ⟨fun c => match c with
    | .distance _ _ _ => Except.ok (mkRat 3456 1000)
    | .angle _ _ _ _ => Except.ok (mkRat 3456 1000)
    | .dihedral _ _ _ _ _ => Except.ok (mkRat 3456 1000)
    | c' => Except.ok (defaultRet c')⟩

/-! ## Behaviour of the combinators -/


theorem callTool_raised {ctx : LifespanCtx} {eng : Engine} {c : EngineCall}
    {okMsg : EngineRet c → String} {errMsg : String → String} {m : String}
    (h : (callTool ctx eng c okMsg errMsg).raised = some m) :
    (callTool ctx eng c okMsg errMsg).result = .str (errMsg m) := by
  unfold callTool at h ⊢
  cases ctx with
  | err em =>
    simp only [get_cmd] at h ⊢
    have hem := Option.some.inj h
    subst hem
    rfl
  | ok =>
    simp only [get_cmd] at h ⊢
    cases hr : eng.run c with
    | ok v =>
      rw [hr] at h
      exact Option.noConfusion h
    | error e =>
      rw [hr] at h
      have hem := Option.some.inj h
      subst hem
      rfl

theorem callTool_errShape {ctx : LifespanCtx} {eng : Engine} {c : EngineCall}
    {okMsg : EngineRet c → String} {errMsg : String → String} {m : String}
    (hsh : ∀ e, strStartsWith "Error" (errMsg e) ∧ strContainsStr (errMsg e) e)
    (h : (callTool ctx eng c okMsg errMsg).raised = some m) :
    ∃ s, (callTool ctx eng c okMsg errMsg).result = .str s ∧
      strStartsWith "Error" s ∧ strContainsStr s m :=
  ⟨errMsg m, callTool_raised h, (hsh m).1, (hsh m).2⟩

theorem callTool_trace {ctx : LifespanCtx} {eng : Engine} {c : EngineCall}
    {okMsg : EngineRet c → String} {errMsg : String → String} :
    initSeg (callTool ctx eng c okMsg errMsg).trace [c] ∧
    ((callTool ctx eng c okMsg errMsg).raised = none →
      (callTool ctx eng c okMsg errMsg).trace = [c]) := by
  unfold callTool
  cases ctx with
  | err em => exact ⟨initSeg_nil _, by simp [get_cmd]⟩
  | ok =>
    simp only [get_cmd]
    cases hr : eng.run c with
    | ok v => exact ⟨initSeg_self _, fun _ => rfl⟩
    | error e => exact ⟨initSeg_self _, by simp⟩

theorem callTool_isStr {ctx : LifespanCtx} {eng : Engine} {c : EngineCall}
    {okMsg : EngineRet c → String} {errMsg : String → String} :
    (callTool ctx eng c okMsg errMsg).result.isStr = true := by
  unfold callTool
  cases ctx with
  | err em => rfl
  | ok =>
    simp only [get_cmd]
    cases hr : eng.run c with
    | ok v => rfl
    | error e => rfl

theorem callTool_ctx {ctx : LifespanCtx} {eng : Engine} {c : EngineCall}
    {okMsg : EngineRet c → String} {errMsg : String → String} :
    (callTool ctx eng c okMsg errMsg).ctx = ctx := by
  unfold callTool
  cases ctx with
  | err em => rfl
  | ok =>
    simp only [get_cmd]
    cases hr : eng.run c with
    | ok v => rfl
    | error e => rfl

theorem twoCallTool_raised {ctx : LifespanCtx} {eng : Engine} {c₁ c₂ : EngineCall}
    {okMsg : String} {errMsg : String → String} {m : String}
    (h : (twoCallTool ctx eng c₁ c₂ okMsg errMsg).raised = some m) :
    (twoCallTool ctx eng c₁ c₂ okMsg errMsg).result = .str (errMsg m) := by
  unfold twoCallTool at h ⊢
  cases ctx with
  | err em =>
    simp only [get_cmd] at h ⊢
    have hem := Option.some.inj h
    subst hem
    rfl
  | ok =>
    simp only [get_cmd] at h ⊢
    cases h1 : eng.run c₁ with
    | ok v =>
      rw [h1] at h
      cases h2 : eng.run c₂ with
      | ok v' =>
        rw [h2] at h
        exact Option.noConfusion h
      | error e' =>
        rw [h2] at h
        have hem := Option.some.inj h
        subst hem
        rfl
    | error e =>
      rw [h1] at h
      have hem := Option.some.inj h
      subst hem
      rfl

theorem twoCallTool_errShape {ctx : LifespanCtx} {eng : Engine} {c₁ c₂ : EngineCall}
    {okMsg : String} {errMsg : String → String} {m : String}
    (hsh : ∀ e, strStartsWith "Error" (errMsg e) ∧ strContainsStr (errMsg e) e)
    (h : (twoCallTool ctx eng c₁ c₂ okMsg errMsg).raised = some m) :
    ∃ s, (twoCallTool ctx eng c₁ c₂ okMsg errMsg).result = .str s ∧
      strStartsWith "Error" s ∧ strContainsStr s m :=
  ⟨errMsg m, twoCallTool_raised h, (hsh m).1, (hsh m).2⟩

theorem twoCallTool_trace {ctx : LifespanCtx} {eng : Engine} {c₁ c₂ : EngineCall}
    {okMsg : String} {errMsg : String → String} :
    initSeg (twoCallTool ctx eng c₁ c₂ okMsg errMsg).trace [c₁, c₂] ∧
    ((twoCallTool ctx eng c₁ c₂ okMsg errMsg).raised = none →
      (twoCallTool ctx eng c₁ c₂ okMsg errMsg).trace = [c₁, c₂]) := by
  unfold twoCallTool
  cases ctx with
  | err em => exact ⟨initSeg_nil _, by simp [get_cmd]⟩
  | ok =>
    simp only [get_cmd]
    cases h1 : eng.run c₁ with
    | ok v =>
      cases h2 : eng.run c₂ with
      | ok v' => exact ⟨initSeg_self _, fun _ => rfl⟩
      | error e' => exact ⟨initSeg_self _, by simp⟩
    | error e => exact ⟨initSeg_append [c₁] [c₂], by simp⟩

theorem twoCallTool_isStr {ctx : LifespanCtx} {eng : Engine} {c₁ c₂ : EngineCall}
    {okMsg : String} {errMsg : String → String} :
    (twoCallTool ctx eng c₁ c₂ okMsg errMsg).result.isStr = true := by
  unfold twoCallTool
  cases ctx with
  | err em => rfl
  | ok =>
    simp only [get_cmd]
    cases h1 : eng.run c₁ with
    | ok v =>
      cases h2 : eng.run c₂ with
      | ok v' => rfl
      | error e' => rfl
    | error e => rfl

theorem twoCallTool_ctx {ctx : LifespanCtx} {eng : Engine} {c₁ c₂ : EngineCall}
    {okMsg : String} {errMsg : String → String} :
    (twoCallTool ctx eng c₁ c₂ okMsg errMsg).ctx = ctx := by
  unfold twoCallTool
  cases ctx with
  | err em => rfl
  | ok =>
    simp only [get_cmd]
    cases h1 : eng.run c₁ with
    | ok v =>
      cases h2 : eng.run c₂ with
      | ok v' => rfl
      | error e' => rfl
    | error e => rfl

/-! ## Behaviour of the explicitly written handlers -/

theorem isStr_exists {r : ToolResult} (h : r.isStr = true) : ∃ s, r = .str s := by
  cases r with
  | str s => exact ⟨s, rfl⟩
  | image d f => exact Bool.noConfusion h

theorem initSeg_mem {α : Type} {l₁ l₂ : List α} (h : initSeg l₁ l₂) {c : α}
    (hc : c ∈ l₁) : c ∈ l₂ := by
  obtain ⟨t, ht⟩ := h
  rw [← ht]
  exact List.mem_append_left t hc

theorem digitChar_isDigit : ∀ k, k < 10 → (Nat.digitChar k).isDigit = true := by decide

theorem natDigitsAux_digits (fuel : Nat) : ∀ (n : Nat), ∀ c ∈ natDigitsAux fuel n,
    c.isDigit = true := by
  induction fuel with
  | zero => intro n c hc; simp [natDigitsAux] at hc
  | succ f ih =>
    intro n c hc
    unfold natDigitsAux at hc
    split at hc
    · simp at hc
    · rw [List.mem_append] at hc
      rcases hc with hc | hc
      · exact ih _ c hc
      · simp only [List.mem_singleton] at hc
        subst hc
        exact digitChar_isDigit _ (Nat.mod_lt _ (by decide))

theorem natToDec_digits (n : Nat) : ∀ c ∈ (natToDec n).data, c.isDigit = true := by
  unfold natToDec
  split
  · intro c hc
    have hc' : c ∈ ['0'] := hc
    simp only [List.mem_singleton] at hc'
    subst hc'
    decide
  · intro c hc
    exact natDigitsAux_digits n n c hc

theorem pyFixed2_twoDecimals (q : Rat) : twoDecimals (pyFixed2 q) := by
  refine ⟨((if q.num < 0 then "-" else "") ++
      natToDec ((roundHalfEvenHundredths q).natAbs / 100)).data, _, _,
    String.data_append _ _, ?_, digitChar_isDigit _ (Nat.mod_lt _ (by decide)),
    digitChar_isDigit _ (Nat.mod_lt _ (by decide))⟩
  intro hmem
  rw [String.data_append, List.mem_append] at hmem
  rcases hmem with hm | hm
  · revert hm
    split <;> decide
  · exact absurd (natToDec_digits _ _ hm) (by decide)

theorem load_structure_spec (ctx : LifespanCtx) (eng : Engine) (cwd file_path : String) :
    (load_structure ctx eng cwd file_path).ctx = ctx ∧
    (load_structure ctx eng cwd file_path).result.isStr = true ∧
    initSeg (load_structure ctx eng cwd file_path).trace
      [.load (if os_path_isabs file_path then file_path else os_path_abspath cwd file_path)] ∧
    ((load_structure ctx eng cwd file_path).raised = none →
      (load_structure ctx eng cwd file_path).trace =
        [.load (if os_path_isabs file_path then file_path else os_path_abspath cwd file_path)] ∧
      (load_structure ctx eng cwd file_path).result =
        .str ("Successfully loaded " ++
          (if os_path_isabs file_path then file_path else os_path_abspath cwd file_path))) ∧
    (∀ m, (load_structure ctx eng cwd file_path).raised = some m →
      ∃ s, (load_structure ctx eng cwd file_path).result = .str s ∧
        strStartsWith "Error" s ∧ strContainsStr s m) := by
  unfold load_structure
  cases ctx with
  | err em =>
    refine ⟨rfl, rfl, initSeg_nil _, fun hc => Option.noConfusion hc, fun m hm => ?_⟩
    have hem := Option.some.inj hm
    subst hem
    exact ⟨_, rfl, sw_append _ (sw_append _ (sw_append _ (sw_dec _ _ (by decide)))),
      contains_append_end _ _⟩
  | ok =>
    simp only [get_cmd]
    cases hr : eng.run (.load (if os_path_isabs file_path then file_path
        else os_path_abspath cwd file_path)) with
    | ok v =>
      exact ⟨rfl, rfl, initSeg_self _, fun _ => ⟨rfl, rfl⟩, fun m hm => Option.noConfusion hm⟩
    | error e =>
      refine ⟨rfl, rfl, initSeg_self _, fun hc => Option.noConfusion hc, fun m hm => ?_⟩
      have hem := Option.some.inj hm
      subst hem
      exact ⟨_, rfl, sw_append _ (sw_append _ (sw_append _ (sw_dec _ _ (by decide)))),
        contains_append_end _ _⟩

theorem save_structure_spec (ctx : LifespanCtx) (eng : Engine)
    (cwd filename selection : String) (state : Int) :
    (save_structure ctx eng cwd filename selection state).ctx = ctx ∧
    (save_structure ctx eng cwd filename selection state).result.isStr = true ∧
    initSeg (save_structure ctx eng cwd filename selection state).trace
      [.save (if os_path_isabs filename then filename else os_path_abspath cwd filename)
        selection state] ∧
    ((save_structure ctx eng cwd filename selection state).raised = none →
      (save_structure ctx eng cwd filename selection state).trace =
        [.save (if os_path_isabs filename then filename else os_path_abspath cwd filename)
          selection state] ∧
      (save_structure ctx eng cwd filename selection state).result =
        .str ("Saved " ++ selection ++ " to " ++
          (if os_path_isabs filename then filename else os_path_abspath cwd filename))) ∧
    (∀ m, (save_structure ctx eng cwd filename selection state).raised = some m →
      ∃ s, (save_structure ctx eng cwd filename selection state).result = .str s ∧
        strStartsWith "Error" s ∧ strContainsStr s m) := by
  unfold save_structure
  cases ctx with
  | err em =>
    refine ⟨rfl, rfl, initSeg_nil _, fun hc => Option.noConfusion hc, fun m hm => ?_⟩
    have hem := Option.some.inj hm
    subst hem
    exact ⟨_, rfl, sw_append _ (sw_append _ (sw_append _ (sw_dec _ _ (by decide)))),
      contains_append_end _ _⟩
  | ok =>
    simp only [get_cmd]
    cases hr : eng.run (.save (if os_path_isabs filename then filename
        else os_path_abspath cwd filename) selection state) with
    | ok v =>
      exact ⟨rfl, rfl, initSeg_self _, fun _ => ⟨rfl, rfl⟩, fun m hm => Option.noConfusion hm⟩
    | error e =>
      refine ⟨rfl, rfl, initSeg_self _, fun hc => Option.noConfusion hc, fun m hm => ?_⟩
      have hem := Option.some.inj hm
      subst hem
      exact ⟨_, rfl, sw_append _ (sw_append _ (sw_append _ (sw_dec _ _ (by decide)))),
        contains_append_end _ _⟩

theorem save_png_spec (ctx : LifespanCtx) (eng : Engine) (cwd filename : String)
    (width height : Int) (ray : Bool) :
    (save_png ctx eng cwd filename width height ray).ctx = ctx ∧
    (save_png ctx eng cwd filename width height ray).result.isStr = true ∧
    initSeg (save_png ctx eng cwd filename width height ray).trace
      (expectedCalls cwd (.save_png filename width height ray)) ∧
    ((save_png ctx eng cwd filename width height ray).raised = none →
      (save_png ctx eng cwd filename width height ray).trace =
        expectedCalls cwd (.save_png filename width height ray) ∧
      (save_png ctx eng cwd filename width height ray).result =
        .str ("Saved PNG image to " ++
          (if os_path_isabs filename then filename else os_path_abspath cwd filename))) ∧
    (∀ m, (save_png ctx eng cwd filename width height ray).raised = some m →
      ∃ s, (save_png ctx eng cwd filename width height ray).result = .str s ∧
        strStartsWith "Error" s ∧ strContainsStr s m) := by
  unfold save_png
  simp only [expectedCalls]
  cases ctx with
  | err em =>
    refine ⟨rfl, rfl, initSeg_nil _, fun hc => Option.noConfusion hc, fun m hm => ?_⟩
    have hem := Option.some.inj hm
    subst hem
    exact ⟨_, rfl, sw_append _ (sw_dec _ _ (by decide)), contains_append_end _ _⟩
  | ok =>
    simp only [get_cmd]
    cases hv : eng.run (.viewport width height) with
    | error e =>
      refine ⟨rfl, rfl, ?_, fun hc => Option.noConfusion hc, fun m hm => ?_⟩
      · cases ray
        · exact initSeg_append _ _
        · exact initSeg_append _ _
      · have hem := Option.some.inj hm
        subst hem
        exact ⟨_, rfl, sw_append _ (sw_dec _ _ (by decide)), contains_append_end _ _⟩
    | ok v =>
      cases hp : eng.run (.png (if os_path_isabs filename then filename
          else os_path_abspath cwd filename)) with
      | ok v' =>
        cases hr2 : eng.run (.ray width height) with
        | ok v'' =>
          cases ray
          · exact ⟨rfl, rfl, initSeg_self _, fun _ => ⟨rfl, rfl⟩,
              fun m hm => Option.noConfusion hm⟩
          · exact ⟨rfl, rfl, initSeg_self _, fun _ => ⟨rfl, rfl⟩,
              fun m hm => Option.noConfusion hm⟩
        | error e'' =>
          cases ray
          · exact ⟨rfl, rfl, initSeg_self _, fun _ => ⟨rfl, rfl⟩,
              fun m hm => Option.noConfusion hm⟩
          · refine ⟨rfl, rfl, initSeg_append _ _, fun hc => Option.noConfusion hc,
              fun m hm => ?_⟩
            have hem := Option.some.inj hm
            subst hem
            exact ⟨_, rfl, sw_append _ (sw_dec _ _ (by decide)), contains_append_end _ _⟩
      | error e' =>
        cases hr2 : eng.run (.ray width height) with
        | ok v'' =>
          cases ray
          · refine ⟨rfl, rfl, initSeg_self _, fun hc => Option.noConfusion hc,
              fun m hm => ?_⟩
            have hem := Option.some.inj hm
            subst hem
            exact ⟨_, rfl, sw_append _ (sw_dec _ _ (by decide)), contains_append_end _ _⟩
          · refine ⟨rfl, rfl, initSeg_self _, fun hc => Option.noConfusion hc,
              fun m hm => ?_⟩
            have hem := Option.some.inj hm
            subst hem
            exact ⟨_, rfl, sw_append _ (sw_dec _ _ (by decide)), contains_append_end _ _⟩
        | error e'' =>
          cases ray
          · refine ⟨rfl, rfl, initSeg_self _, fun hc => Option.noConfusion hc,
              fun m hm => ?_⟩
            have hem := Option.some.inj hm
            subst hem
            exact ⟨_, rfl, sw_append _ (sw_dec _ _ (by decide)), contains_append_end _ _⟩
          · refine ⟨rfl, rfl, initSeg_append _ _, fun hc => Option.noConfusion hc,
              fun m hm => ?_⟩
            have hem := Option.some.inj hm
            subst hem
            exact ⟨_, rfl, sw_append _ (sw_dec _ _ (by decide)), contains_append_end _ _⟩

theorem render_image_spec (ctx : LifespanCtx) (eng : Engine) (width height : Int)
    (ray_tr : Bool) :
    (render_image ctx eng width height ray_tr).ctx = ctx ∧
    (∃ d, (render_image ctx eng width height ray_tr).result = .image d "png") ∧
    initSeg (render_image ctx eng width height ray_tr).trace
      (expectedCalls "" (.render_image width height ray_tr)) ∧
    ((render_image ctx eng width height ray_tr).raised = none →
      (render_image ctx eng width height ray_tr).trace =
        expectedCalls "" (.render_image width height ray_tr) ∧
      ∃ data, (render_image ctx eng width height ray_tr).result =
        .image (.fromEngine data) "png") ∧
    (∀ m, (render_image ctx eng width height ray_tr).raised = some m →
      (render_image ctx eng width height ray_tr).result = blankErrorImage) := by
  unfold render_image
  simp only [expectedCalls]
  cases ctx with
  | err em =>
    exact ⟨rfl, ⟨_, rfl⟩, initSeg_nil _, fun hc => Option.noConfusion hc, fun m hm => rfl⟩
  | ok =>
    simp only [get_cmd]
    cases hv : eng.run (.viewport width height) with
    | error e =>
      refine ⟨rfl, ⟨_, rfl⟩, ?_, fun hc => Option.noConfusion hc, fun m hm => rfl⟩
      cases ray_tr
      · exact initSeg_append _ _
      · exact initSeg_append _ _
    | ok v =>
      cases hp : eng.run .png_as_string with
      | ok png_data =>
        cases hr2 : eng.run (.ray width height) with
        | ok v'' =>
          cases ray_tr
          · exact ⟨rfl, ⟨_, rfl⟩, initSeg_self _, fun _ => ⟨rfl, _, rfl⟩,
              fun m hm => Option.noConfusion hm⟩
          · exact ⟨rfl, ⟨_, rfl⟩, initSeg_self _, fun _ => ⟨rfl, _, rfl⟩,
              fun m hm => Option.noConfusion hm⟩
        | error e'' =>
          cases ray_tr
          · exact ⟨rfl, ⟨_, rfl⟩, initSeg_self _, fun _ => ⟨rfl, _, rfl⟩,
              fun m hm => Option.noConfusion hm⟩
          · exact ⟨rfl, ⟨_, rfl⟩, initSeg_append _ _, fun hc => Option.noConfusion hc,
              fun m hm => rfl⟩
      | error e' =>
        cases hr2 : eng.run (.ray width height) with
        | ok v'' =>
          cases ray_tr
          · exact ⟨rfl, ⟨_, rfl⟩, initSeg_self _, fun hc => Option.noConfusion hc,
              fun m hm => rfl⟩
          · exact ⟨rfl, ⟨_, rfl⟩, initSeg_self _, fun hc => Option.noConfusion hc,
              fun m hm => rfl⟩
        | error e'' =>
          cases ray_tr
          · exact ⟨rfl, ⟨_, rfl⟩, initSeg_self _, fun hc => Option.noConfusion hc,
              fun m hm => rfl⟩
          · exact ⟨rfl, ⟨_, rfl⟩, initSeg_append _ _, fun hc => Option.noConfusion hc,
              fun m hm => rfl⟩

theorem get_pymol_state_spec (imp : Except String Unit) (eng : Engine) :
    (get_pymol_state imp eng).2.2.isStr = true ∧
    initSeg (get_pymol_state imp eng).1
      [.get_names "objects", .get_names "selections", .get_view] ∧
    ((get_pymol_state imp eng).2.1 = none →
      (get_pymol_state imp eng).1 =
        [.get_names "objects", .get_names "selections", .get_view]) ∧
    (∀ m, (get_pymol_state imp eng).2.1 = some m →
      ∃ s, (get_pymol_state imp eng).2.2 = .str s ∧
        strStartsWith "Error" s ∧ strContainsStr s m) := by
  unfold get_pymol_state
  cases imp with
  | error e =>
    refine ⟨rfl, initSeg_nil _, fun hc => Option.noConfusion hc, fun m hm => ?_⟩
    have hem := Option.some.inj hm
    subst hem
    exact ⟨_, rfl, sw_append _ (sw_dec _ _ (by decide)), contains_append_end _ _⟩
  | ok u =>
    cases h1 : eng.run (.get_names "objects") with
    | error e =>
      refine ⟨rfl, initSeg_append _ _, fun hc => Option.noConfusion hc, fun m hm => ?_⟩
      have hem := Option.some.inj hm
      subst hem
      exact ⟨_, rfl, sw_append _ (sw_dec _ _ (by decide)), contains_append_end _ _⟩
    | ok objects =>
      cases h2 : eng.run (.get_names "selections") with
      | error e =>
        refine ⟨rfl, initSeg_append _ _, fun hc => Option.noConfusion hc, fun m hm => ?_⟩
        have hem := Option.some.inj hm
        subst hem
        exact ⟨_, rfl, sw_append _ (sw_dec _ _ (by decide)), contains_append_end _ _⟩
      | ok selections =>
        cases h3 : eng.run .get_view with
        | error e =>
          refine ⟨rfl, initSeg_self _, fun hc => Option.noConfusion hc, fun m hm => ?_⟩
          have hem := Option.some.inj hm
          subst hem
          exact ⟨_, rfl, sw_append _ (sw_dec _ _ (by decide)), contains_append_end _ _⟩
        | ok view =>
          exact ⟨rfl, initSeg_self _, fun _ => rfl, fun m hm => Option.noConfusion hm⟩

/-! ## Dispatch-level helpers -/

theorem dispatch_trace_spec (req : Request) (ctx : LifespanCtx) (imp : Except String Unit)
    (eng : Engine) (cwd : String) :
    initSeg (dispatch req ctx imp eng cwd).trace (expectedCalls cwd req) ∧
    ((dispatch req ctx imp eng cwd).raised = none →
      (dispatch req ctx imp eng cwd).trace = expectedCalls cwd req) := by
  cases req with
  | fetch_structure p => exact callTool_trace
  | load_structure p =>
    exact ⟨(load_structure_spec ctx eng cwd p).2.2.1,
      fun h => ((load_structure_spec ctx eng cwd p).2.2.2.1 h).1⟩
  | show_representation r s => exact callTool_trace
  | hide_representation r s => exact callTool_trace
  | color_selection c s => exact callTool_trace
  | create_selection n s => exact callTool_trace
  | enable_object n => exact callTool_trace
  | disable_object n => exact callTool_trace
  | zoom_selection s => exact callTool_trace
  | measure_distance a1 a2 n => exact callTool_trace
  | measure_angle a1 a2 a3 n => exact callTool_trace
  | measure_dihedral a1 a2 a3 a4 n => exact callTool_trace
  | add_label s t => exact callTool_trace
  | draw_image w h => exact twoCallTool_trace
  | ray_trace w h => exact twoCallTool_trace
  | save_png f w h r =>
    exact ⟨(save_png_spec ctx eng cwd f w h r).2.2.1,
      fun hn => ((save_png_spec ctx eng cwd f w h r).2.2.2.1 hn).1⟩
  | render_image w h r =>
    exact ⟨(render_image_spec ctx eng w h r).2.2.1,
      fun hn => ((render_image_spec ctx eng w h r).2.2.2.1 hn).1⟩
  | run_command c => exact callTool_trace
  | list_objects => exact callTool_trace
  | list_selections => exact callTool_trace
  | save_structure f s st =>
    exact ⟨(save_structure_spec ctx eng cwd f s st).2.2.1,
      fun hn => ((save_structure_spec ctx eng cwd f s st).2.2.2.1 hn).1⟩
  | get_pymol_state =>
    exact ⟨(get_pymol_state_spec imp eng).2.1,
      fun hn => (get_pymol_state_spec imp eng).2.2.1 hn⟩

theorem expectedCalls_len (cwd : String) (req : Request) :
    (expectedCalls cwd req).length ≤ 3 := by
  cases req with
  | save_png f w h r => cases r <;> simp [expectedCalls]
  | render_image w h r => cases r <;> simp [expectedCalls]
  | _ => simp [expectedCalls]

/-! ## The claims -/

/-- C1 (amended): for every exposed operation except `render_image`, if the
handling of a request raises (from initialization access or an engine call),
the operation catches the exception and returns a string beginning with
"Error" that embeds the exception text; `render_image` also catches the
exception but returns a blank image payload instead of a string. -/
theorem claim_C1 (req : Request) (ctx : LifespanCtx) (imp : Except String Unit)
    (eng : Engine) (cwd : String) (m : String)
    (h : (dispatch req ctx imp eng cwd).raised = some m) :
    (req.isRenderImage = false →
      ∃ s, (dispatch req ctx imp eng cwd).result = ToolResult.str s ∧
        strStartsWith "Error" s ∧ strContainsStr s m) ∧
    (req.isRenderImage = true →
      (dispatch req ctx imp eng cwd).result = blankErrorImage) := by
  cases req with
  | fetch_structure p =>
    exact ⟨fun _ => callTool_errShape (fun e =>
      ⟨by repeat first | exact sw_dec _ _ (by decide) | apply sw_append,
        contains_append_end _ _⟩) h, fun hf => Bool.noConfusion hf⟩
  | load_structure p =>
    exact ⟨fun _ => (load_structure_spec ctx eng cwd p).2.2.2.2 m h,
      fun hf => Bool.noConfusion hf⟩
  | show_representation r s =>
    exact ⟨fun _ => callTool_errShape (fun e =>
      ⟨by repeat first | exact sw_dec _ _ (by decide) | apply sw_append,
        contains_append_end _ _⟩) h, fun hf => Bool.noConfusion hf⟩
  | hide_representation r s =>
    exact ⟨fun _ => callTool_errShape (fun e =>
      ⟨by repeat first | exact sw_dec _ _ (by decide) | apply sw_append,
        contains_append_end _ _⟩) h, fun hf => Bool.noConfusion hf⟩
  | color_selection c s =>
    exact ⟨fun _ => callTool_errShape (fun e =>
      ⟨by repeat first | exact sw_dec _ _ (by decide) | apply sw_append,
        contains_append_end _ _⟩) h, fun hf => Bool.noConfusion hf⟩
  | create_selection n s =>
    exact ⟨fun _ => callTool_errShape (fun e =>
      ⟨by repeat first | exact sw_dec _ _ (by decide) | apply sw_append,
        contains_append_end _ _⟩) h, fun hf => Bool.noConfusion hf⟩
  | enable_object n =>
    exact ⟨fun _ => callTool_errShape (fun e =>
      ⟨by repeat first | exact sw_dec _ _ (by decide) | apply sw_append,
        contains_append_end _ _⟩) h, fun hf => Bool.noConfusion hf⟩
  | disable_object n =>
    exact ⟨fun _ => callTool_errShape (fun e =>
      ⟨by repeat first | exact sw_dec _ _ (by decide) | apply sw_append,
        contains_append_end _ _⟩) h, fun hf => Bool.noConfusion hf⟩
  | zoom_selection s =>
    exact ⟨fun _ => callTool_errShape (fun e =>
      ⟨by repeat first | exact sw_dec _ _ (by decide) | apply sw_append,
        contains_append_end _ _⟩) h, fun hf => Bool.noConfusion hf⟩
  | measure_distance a1 a2 n =>
    exact ⟨fun _ => callTool_errShape (fun e =>
      ⟨by repeat first | exact sw_dec _ _ (by decide) | apply sw_append,
        contains_append_end _ _⟩) h, fun hf => Bool.noConfusion hf⟩
  | measure_angle a1 a2 a3 n =>
    exact ⟨fun _ => callTool_errShape (fun e =>
      ⟨by repeat first | exact sw_dec _ _ (by decide) | apply sw_append,
        contains_append_end _ _⟩) h, fun hf => Bool.noConfusion hf⟩
  | measure_dihedral a1 a2 a3 a4 n =>
    exact ⟨fun _ => callTool_errShape (fun e =>
      ⟨by repeat first | exact sw_dec _ _ (by decide) | apply sw_append,
        contains_append_end _ _⟩) h, fun hf => Bool.noConfusion hf⟩
  | add_label s t =>
    exact ⟨fun _ => callTool_errShape (fun e =>
      ⟨by repeat first | exact sw_dec _ _ (by decide) | apply sw_append,
        contains_append_end _ _⟩) h, fun hf => Bool.noConfusion hf⟩
  | draw_image w hh =>
    exact ⟨fun _ => twoCallTool_errShape (fun e =>
      ⟨by repeat first | exact sw_dec _ _ (by decide) | apply sw_append,
        contains_append_end _ _⟩) h, fun hf => Bool.noConfusion hf⟩
  | ray_trace w hh =>
    exact ⟨fun _ => twoCallTool_errShape (fun e =>
      ⟨by repeat first | exact sw_dec _ _ (by decide) | apply sw_append,
        contains_append_end _ _⟩) h, fun hf => Bool.noConfusion hf⟩
  | save_png f w hh r =>
    exact ⟨fun _ => (save_png_spec ctx eng cwd f w hh r).2.2.2.2 m h,
      fun hf => Bool.noConfusion hf⟩
  | render_image w hh r =>
    exact ⟨fun hf => Bool.noConfusion hf,
      fun _ => (render_image_spec ctx eng w hh r).2.2.2.2 m h⟩
  | run_command c =>
    exact ⟨fun _ => callTool_errShape (fun e =>
      ⟨by repeat first | exact sw_dec _ _ (by decide) | apply sw_append,
        contains_append_end _ _⟩) h, fun hf => Bool.noConfusion hf⟩
  | list_objects =>
    exact ⟨fun _ => callTool_errShape (fun e =>
      ⟨by repeat first | exact sw_dec _ _ (by decide) | apply sw_append,
        contains_append_end _ _⟩) h, fun hf => Bool.noConfusion hf⟩
  | list_selections =>
    exact ⟨fun _ => callTool_errShape (fun e =>
      ⟨by repeat first | exact sw_dec _ _ (by decide) | apply sw_append,
        contains_append_end _ _⟩) h, fun hf => Bool.noConfusion hf⟩
  | save_structure f s st =>
    exact ⟨fun _ => (save_structure_spec ctx eng cwd f s st).2.2.2.2 m h,
      fun hf => Bool.noConfusion hf⟩
  | get_pymol_state =>
    exact ⟨fun _ => (get_pymol_state_spec imp eng).2.2.2 m h,
      fun hf => Bool.noConfusion hf⟩

/-- Witness for C1: with a failed initialization, `fetch_structure` returns
an error string embedding the exception text. -/
theorem claim_C1_witness :
    ∃ s, (dispatch (.fetch_structure "1abc") (.err "boom") (.ok ()) engAllOk "/work").result =
        ToolResult.str s ∧
      strStartsWith "Error" s ∧ strContainsStr s "PyMOL not properly initialized: boom" :=
  (claim_C1 (.fetch_structure "1abc") (.err "boom") (.ok ()) engAllOk "/work"
    "PyMOL not properly initialized: boom" (by decide)).1 rfl

/-- Counterexample to C1 as stated: when rendering fails, `render_image`
returns an image payload, not a string beginning with "Error". -/
theorem claim_C1_cex :
    (dispatch (.render_image 800 600 true) .ok (.ok ()) (engAllFail "boom") "/work").raised =
      some "boom" ∧
    (dispatch (.render_image 800 600 true) .ok (.ok ()) (engAllFail "boom") "/work").result.isStr =
      false := by decide

/-- C2 (amended): every handler forwards the caller-supplied argument values
to its engine command unchanged, except that a relative file path is first
resolved against the working directory (see `expectedCalls`): the calls made
are always an initial segment of the expected call list, and exactly that
list when nothing raises. -/
theorem claim_C2 (req : Request) (ctx : LifespanCtx) (imp : Except String Unit)
    (eng : Engine) (cwd : String) :
    initSeg (dispatch req ctx imp eng cwd).trace (expectedCalls cwd req) ∧
    ((dispatch req ctx imp eng cwd).raised = none →
      (dispatch req ctx imp eng cwd).trace = expectedCalls cwd req) :=
  dispatch_trace_spec req ctx imp eng cwd

/-- Witness for C2: a successful `show_representation` call issues exactly
`cmd.show` with the caller's arguments. -/
theorem claim_C2_witness :
    (dispatch (.show_representation "cartoon" "chain A") .ok (.ok ()) engAllOk "/work").trace =
      expectedCalls "/work" (.show_representation "cartoon" "chain A") :=
  (claim_C2 (.show_representation "cartoon" "chain A") .ok (.ok ()) engAllOk "/work").2
    (by decide)

/-- Counterexample to C2 as stated: `load_structure` does not forward a
relative path verbatim; the engine receives the absolutized path. -/
theorem claim_C2_cex :
    (dispatch (.load_structure "model.pdb") .ok (.ok ()) engAllOk "/work").trace =
      [.load "/work/model.pdb"] ∧
    (dispatch (.load_structure "model.pdb") .ok (.ok ()) engAllOk "/work").trace ≠
      [.load "model.pdb"] := by decide

/-- C3 (amended): every request handler invokes at most three methods on the
injected command object before producing its result. -/
theorem claim_C3 (req : Request) (ctx : LifespanCtx) (imp : Except String Unit)
    (eng : Engine) (cwd : String) :
    (dispatch req ctx imp eng cwd).trace.length ≤ 3 :=
  le_trans (initSeg_length (dispatch_trace_spec req ctx imp eng cwd).1)
    (expectedCalls_len cwd req)

/-- Counterexample to C3 as stated: `save_png` with ray tracing enabled
makes three engine calls (`viewport`, `ray`, `png`), not at most two. -/
theorem claim_C3_cex :
    ¬ ((dispatch (.save_png "img.png" 800 600 true) .ok (.ok ()) engAllOk "/work").trace.length
      ≤ 2) := by decide

/-- C4: every exposed operation returns a status string, except the
rendering operation, which always returns a PNG image payload. -/
theorem claim_C4 (req : Request) (ctx : LifespanCtx) (imp : Except String Unit)
    (eng : Engine) (cwd : String) :
    (req.isRenderImage = false →
      ∃ s, (dispatch req ctx imp eng cwd).result = ToolResult.str s) ∧
    (req.isRenderImage = true →
      ∃ d, (dispatch req ctx imp eng cwd).result = ToolResult.image d "png") := by
  cases req with
  | fetch_structure p => exact ⟨fun _ => isStr_exists callTool_isStr, fun hf => Bool.noConfusion hf⟩
  | load_structure p =>
    exact ⟨fun _ => isStr_exists (load_structure_spec ctx eng cwd p).2.1,
      fun hf => Bool.noConfusion hf⟩
  | show_representation r s => exact ⟨fun _ => isStr_exists callTool_isStr, fun hf => Bool.noConfusion hf⟩
  | hide_representation r s => exact ⟨fun _ => isStr_exists callTool_isStr, fun hf => Bool.noConfusion hf⟩
  | color_selection c s => exact ⟨fun _ => isStr_exists callTool_isStr, fun hf => Bool.noConfusion hf⟩
  | create_selection n s => exact ⟨fun _ => isStr_exists callTool_isStr, fun hf => Bool.noConfusion hf⟩
  | enable_object n => exact ⟨fun _ => isStr_exists callTool_isStr, fun hf => Bool.noConfusion hf⟩
  | disable_object n => exact ⟨fun _ => isStr_exists callTool_isStr, fun hf => Bool.noConfusion hf⟩
  | zoom_selection s => exact ⟨fun _ => isStr_exists callTool_isStr, fun hf => Bool.noConfusion hf⟩
  | measure_distance a1 a2 n => exact ⟨fun _ => isStr_exists callTool_isStr, fun hf => Bool.noConfusion hf⟩
  | measure_angle a1 a2 a3 n => exact ⟨fun _ => isStr_exists callTool_isStr, fun hf => Bool.noConfusion hf⟩
  | measure_dihedral a1 a2 a3 a4 n => exact ⟨fun _ => isStr_exists callTool_isStr, fun hf => Bool.noConfusion hf⟩
  | add_label s t => exact ⟨fun _ => isStr_exists callTool_isStr, fun hf => Bool.noConfusion hf⟩
  | draw_image w hh => exact ⟨fun _ => isStr_exists twoCallTool_isStr, fun hf => Bool.noConfusion hf⟩
  | ray_trace w hh => exact ⟨fun _ => isStr_exists twoCallTool_isStr, fun hf => Bool.noConfusion hf⟩
  | save_png f w hh r =>
    exact ⟨fun _ => isStr_exists (save_png_spec ctx eng cwd f w hh r).2.1,
      fun hf => Bool.noConfusion hf⟩
  | render_image w hh r =>
    exact ⟨fun hf => Bool.noConfusion hf, fun _ => (render_image_spec ctx eng w hh r).2.1⟩
  | run_command c => exact ⟨fun _ => isStr_exists callTool_isStr, fun hf => Bool.noConfusion hf⟩
  | list_objects => exact ⟨fun _ => isStr_exists callTool_isStr, fun hf => Bool.noConfusion hf⟩
  | list_selections => exact ⟨fun _ => isStr_exists callTool_isStr, fun hf => Bool.noConfusion hf⟩
  | save_structure f s st =>
    exact ⟨fun _ => isStr_exists (save_structure_spec ctx eng cwd f s st).2.1,
      fun hf => Bool.noConfusion hf⟩
  | get_pymol_state =>
    exact ⟨fun _ => isStr_exists (get_pymol_state_spec imp eng).1,
      fun hf => Bool.noConfusion hf⟩

/-- Witness for C4: `fetch_structure` returns a string and `render_image`
returns a PNG image payload. -/
theorem claim_C4_witness :
    (∃ s, (dispatch (.fetch_structure "1abc") .ok (.ok ()) engAllOk "/work").result =
      ToolResult.str s) ∧
    (∃ d, (dispatch (.render_image 800 600 true) .ok (.ok ()) engAllOk "/work").result =
      ToolResult.image d "png") :=
  ⟨(claim_C4 (.fetch_structure "1abc") .ok (.ok ()) engAllOk "/work").1 rfl,
   (claim_C4 (.render_image 800 600 true) .ok (.ok ()) engAllOk "/work").2 rfl⟩

/-- C5 (amended): the server registers three prompt templates, not two. -/
theorem claim_C5 : registeredPrompts.length = 3 := rfl

/-- Counterexample to C5 as stated: the number of registered prompt
templates is not two. -/
theorem claim_C5_cex : registeredPrompts.length ≠ 2 := by decide

/-- C6 (amended): in every execution the engine is launched at most once
(so a second instance is never created) and `cmd.quit` is called at most
once; requests are served exactly once, after the initialization events and
before the teardown; when initialization succeeds, the launch and the
teardown each happen exactly once. -/
theorem claim_C6 (o : InitOutcome) :
    (pymol_lifespan o).countP isLaunch ≤ 1 ∧
    (pymol_lifespan o).countP isQuit ≤ 1 ∧
    (pymol_lifespan o).countP isServe = 1 ∧
    (∃ pre c post, pymol_lifespan o = pre ++ LifeEvent.serveRequests c :: post ∧
      pre.countP isQuit = 0 ∧ post.countP isLaunch = 0) ∧
    (o = .initOk →
      (pymol_lifespan o).countP isLaunchOk = 1 ∧ (pymol_lifespan o).countP isQuit = 1) := by
  cases o with
  | importFail m =>
    refine ⟨?_, ?_, ?_, ⟨[.importPymol false], .err m, [], rfl, ?_, ?_⟩,
      fun hc => InitOutcome.noConfusion hc⟩ <;>
      simp [pymol_lifespan, List.countP_cons, List.countP_nil, isLaunch, isQuit, isServe]
  | launchFail m =>
    refine ⟨?_, ?_, ?_, ⟨[.importPymol true, .engineLaunch false], .err m, [.engineQuit],
        rfl, ?_, ?_⟩, fun hc => InitOutcome.noConfusion hc⟩ <;>
      simp [pymol_lifespan, List.countP_cons, List.countP_nil, isLaunch, isQuit, isServe]
  | initOk =>
    refine ⟨?_, ?_, ?_, ⟨[.importPymol true, .engineLaunch true,
        .applySetting "retain_order" 1, .applySetting "pdb_use_ter_records" 1], .ok,
        [.engineQuit], rfl, ?_, ?_⟩, fun _ => ⟨?_, ?_⟩⟩ <;>
      simp [pymol_lifespan, List.countP_cons, List.countP_nil, isLaunch, isQuit, isServe,
        isLaunchOk]

/-- Witness for C6: in the successful execution the engine is launched
exactly once and quit exactly once. -/
theorem claim_C6_witness :
    (pymol_lifespan .initOk).countP isLaunchOk = 1 ∧
    (pymol_lifespan .initOk).countP isQuit = 1 :=
  (claim_C6 .initOk).2.2.2.2 rfl

/-- Counterexample to C6 as stated: when `import pymol` fails, requests are
still served although the engine was never initialized, and `cmd.quit` is
never reached. -/
theorem claim_C6_cex :
    (pymol_lifespan (.importFail "No module named pymol")).countP isServe = 1 ∧
    ¬ ((pymol_lifespan (.importFail "No module named pymol")).countP isLaunchOk = 1 ∧
       (pymol_lifespan (.importFail "No module named pymol")).countP isQuit = 1) := by decide

/-- C7: request handling never rebinds or alters the lifespan context; the
handle is only read, and every effect of a handler is a call on the external
command object (recorded in its trace). -/
theorem claim_C7 (req : Request) (ctx : LifespanCtx) (imp : Except String Unit)
    (eng : Engine) (cwd : String) :
    (dispatch req ctx imp eng cwd).ctx = ctx := by
  cases req with
  | fetch_structure p => exact callTool_ctx
  | load_structure p => exact (load_structure_spec ctx eng cwd p).1
  | show_representation r s => exact callTool_ctx
  | hide_representation r s => exact callTool_ctx
  | color_selection c s => exact callTool_ctx
  | create_selection n s => exact callTool_ctx
  | enable_object n => exact callTool_ctx
  | disable_object n => exact callTool_ctx
  | zoom_selection s => exact callTool_ctx
  | measure_distance a1 a2 n => exact callTool_ctx
  | measure_angle a1 a2 a3 n => exact callTool_ctx
  | measure_dihedral a1 a2 a3 a4 n => exact callTool_ctx
  | add_label s t => exact callTool_ctx
  | draw_image w hh => exact twoCallTool_ctx
  | ray_trace w hh => exact twoCallTool_ctx
  | save_png f w hh r => exact (save_png_spec ctx eng cwd f w hh r).1
  | render_image w hh r => exact (render_image_spec ctx eng w hh r).1
  | run_command c => exact callTool_ctx
  | list_objects => exact callTool_ctx
  | list_selections => exact callTool_ctx
  | save_structure f s st => exact (save_structure_spec ctx eng cwd f s st).1
  | get_pymol_state => rfl

/-- C8: whenever rendering raises, `render_image` returns the freshly built
blank white 400x100 PNG; the caught error text does not appear in the
result. -/
theorem claim_C8 (ctx : LifespanCtx) (imp : Except String Unit) (eng : Engine)
    (cwd : String) (w h : Int) (rt : Bool) (m : String)
    (hr : (dispatch (.render_image w h rt) ctx imp eng cwd).raised = some m) :
    (dispatch (.render_image w h rt) ctx imp eng cwd).result =
      ToolResult.image (.pilEncoded 400 100 255 255 255) "png" :=
  (render_image_spec ctx eng w h rt).2.2.2.2 m hr

/-- Witness for C8: a failing render returns the blank image. -/
theorem claim_C8_witness :
    (dispatch (.render_image 800 600 true) .ok (.ok ()) (engAllFail "render failed")
      "/work").result = ToolResult.image (.pilEncoded 400 100 255 255 255) "png" :=
  claim_C8 .ok (.ok ()) (engAllFail "render failed") "/work" 800 600 true
    "render failed" (by decide)

/-- C9 (amended): `load_structure`, `save_png` and `save_structure` resolve
a relative path against the working directory (and forward an absolute path
unchanged) before handing it to the engine, and their success messages embed
the resolved path; error messages are not covered (in particular `save_png`
reports errors without any path). -/
theorem claim_C9 (ctx : LifespanCtx) (imp : Except String Unit) (eng : Engine)
    (cwd p sel : String) (w h st : Int) (ray : Bool) :
    (os_path_isabs p = true →
      (if os_path_isabs p then p else os_path_abspath cwd p) = p) ∧
    (os_path_isabs p = false →
      (if os_path_isabs p then p else os_path_abspath cwd p) = cwd ++ "/" ++ p) ∧
    (∀ c ∈ (dispatch (.load_structure p) ctx imp eng cwd).trace,
      c = EngineCall.load (if os_path_isabs p then p else os_path_abspath cwd p)) ∧
    ((dispatch (.load_structure p) ctx imp eng cwd).raised = none →
      (dispatch (.load_structure p) ctx imp eng cwd).result =
        .str ("Successfully loaded " ++
          (if os_path_isabs p then p else os_path_abspath cwd p)) ∧
      strContainsStr
        ("Successfully loaded " ++ (if os_path_isabs p then p else os_path_abspath cwd p))
        (if os_path_isabs p then p else os_path_abspath cwd p)) ∧
    (∀ c ∈ (dispatch (.save_png p w h ray) ctx imp eng cwd).trace,
      c = EngineCall.viewport w h ∨ c = EngineCall.ray w h ∨
        c = EngineCall.png (if os_path_isabs p then p else os_path_abspath cwd p)) ∧
    ((dispatch (.save_png p w h ray) ctx imp eng cwd).raised = none →
      (dispatch (.save_png p w h ray) ctx imp eng cwd).result =
        .str ("Saved PNG image to " ++
          (if os_path_isabs p then p else os_path_abspath cwd p)) ∧
      strContainsStr
        ("Saved PNG image to " ++ (if os_path_isabs p then p else os_path_abspath cwd p))
        (if os_path_isabs p then p else os_path_abspath cwd p)) ∧
    (∀ c ∈ (dispatch (.save_structure p sel st) ctx imp eng cwd).trace,
      c = EngineCall.save (if os_path_isabs p then p else os_path_abspath cwd p) sel st) ∧
    ((dispatch (.save_structure p sel st) ctx imp eng cwd).raised = none →
      (dispatch (.save_structure p sel st) ctx imp eng cwd).result =
        .str ("Saved " ++ sel ++ " to " ++
          (if os_path_isabs p then p else os_path_abspath cwd p)) ∧
      strContainsStr
        ("Saved " ++ sel ++ " to " ++ (if os_path_isabs p then p else os_path_abspath cwd p))
        (if os_path_isabs p then p else os_path_abspath cwd p)) := by
  refine ⟨fun hab => by simp [hab], fun hab => by simp [hab, os_path_abspath],
    fun c hc => ?_, fun hn => ?_, fun c hc => ?_, fun hn => ?_, fun c hc => ?_, fun hn => ?_⟩
  · have h2 := initSeg_mem (dispatch_trace_spec (.load_structure p) ctx imp eng cwd).1 hc
    simpa [expectedCalls] using h2
  · exact ⟨((load_structure_spec ctx eng cwd p).2.2.2.1 hn).2, contains_append_end _ _⟩
  · have h2 := initSeg_mem (dispatch_trace_spec (.save_png p w h ray) ctx imp eng cwd).1 hc
    revert h2
    cases ray <;> simp [expectedCalls] <;> tauto
  · exact ⟨((save_png_spec ctx eng cwd p w h ray).2.2.2.1 hn).2, contains_append_end _ _⟩
  · have h2 := initSeg_mem (dispatch_trace_spec (.save_structure p sel st) ctx imp eng cwd).1 hc
    simpa [expectedCalls] using h2
  · exact ⟨((save_structure_spec ctx eng cwd p sel st).2.2.2.1 hn).2, contains_append_end _ _⟩

/-- Witness for C9: loading the relative path "model.pdb" from "/work"
issues `cmd.load` on the resolved path and reports it in the message. -/
theorem claim_C9_witness :
    (dispatch (.load_structure "model.pdb") .ok (.ok ()) engAllOk "/work").result =
      .str ("Successfully loaded " ++
        (if os_path_isabs "model.pdb" then "model.pdb"
         else os_path_abspath "/work" "model.pdb")) ∧
    strContainsStr
      ("Successfully loaded " ++ (if os_path_isabs "model.pdb" then "model.pdb"
        else os_path_abspath "/work" "model.pdb"))
      (if os_path_isabs "model.pdb" then "model.pdb"
       else os_path_abspath "/work" "model.pdb") :=
  (claim_C9 .ok (.ok ()) engAllOk "/work" "model.pdb" "all" 800 600 (-1) true).2.2.2.1
    (by decide)

/-- Counterexample to C9 as stated: a failing `save_png` on a relative path
returns an error message that contains no path at all, let alone the
absolute one. -/
theorem claim_C9_cex :
    (dispatch (.save_png "img.png" 800 600 true) .ok (.ok ()) (engAllFail "boom")
      "/work").result = .str "Error saving PNG: boom" ∧
    ¬ strContainsStr "Error saving PNG: boom" "/work/img.png" :=
  ⟨by decide, not_contains_of_missing_char '/' (by decide) (by decide)⟩

/-- C10: a successful measurement call formats the value the engine
returned with two decimal places (`pyFixed2`, the model of `{result:.2f}`),
suffixed with the angstrom sign for `measure_distance` and the degree sign
for `measure_angle` and `measure_dihedral`. -/
theorem claim_C10 (ctx : LifespanCtx) (eng : Engine)
    (atom1 atom2 atom3 atom4 nm : String) (q : Rat) :
    (ctx = LifespanCtx.ok → eng.run (.distance nm atom1 atom2) = .ok q →
      (measure_distance ctx eng atom1 atom2 nm).result =
        .str ("Distance between " ++ atom1 ++ " and " ++ atom2 ++ " is " ++
          pyFixed2 q ++ " Å") ∧
      twoDecimals (pyFixed2 q)) ∧
    (ctx = LifespanCtx.ok → eng.run (.angle nm atom1 atom2 atom3) = .ok q →
      (measure_angle ctx eng atom1 atom2 atom3 nm).result =
        .str ("Angle between " ++ atom1 ++ ", " ++ atom2 ++ ", and " ++ atom3 ++
          " is " ++ pyFixed2 q ++ "°") ∧
      twoDecimals (pyFixed2 q)) ∧
    (ctx = LifespanCtx.ok → eng.run (.dihedral nm atom1 atom2 atom3 atom4) = .ok q →
      (measure_dihedral ctx eng atom1 atom2 atom3 atom4 nm).result =
        .str ("Dihedral angle between " ++ atom1 ++ ", " ++ atom2 ++ ", " ++ atom3 ++
          ", and " ++ atom4 ++ " is " ++ pyFixed2 q ++ "°") ∧
      twoDecimals (pyFixed2 q)) := by
  refine ⟨fun hc hq => ?_, fun hc hq => ?_, fun hc hq => ?_⟩ <;> subst hc
  · unfold measure_distance callTool
    simp only [get_cmd, hq]
    exact ⟨trivial, pyFixed2_twoDecimals q⟩
  · unfold measure_angle callTool
    simp only [get_cmd, hq]
    exact ⟨trivial, pyFixed2_twoDecimals q⟩
  · unfold measure_dihedral callTool
    simp only [get_cmd, hq]
    exact ⟨trivial, pyFixed2_twoDecimals q⟩

/-- Witness for C10: with the engine reporting `3.456`, the three
measurement messages carry "3.46" with the documented suffixes. -/
theorem claim_C10_witness :
    ((measure_distance .ok engMeasure "a1" "a2" "d01").result =
      .str ("Distance between " ++ "a1" ++ " and " ++ "a2" ++ " is " ++
        pyFixed2 (mkRat 3456 1000) ++ " Å") ∧
      twoDecimals (pyFixed2 (mkRat 3456 1000))) ∧
    ((measure_angle .ok engMeasure "a1" "a2" "a3" "ang01").result =
      .str ("Angle between " ++ "a1" ++ ", " ++ "a2" ++ ", and " ++ "a3" ++
        " is " ++ pyFixed2 (mkRat 3456 1000) ++ "°") ∧
      twoDecimals (pyFixed2 (mkRat 3456 1000))) ∧
    ((measure_dihedral .ok engMeasure "a1" "a2" "a3" "a4" "dih01").result =
      .str ("Dihedral angle between " ++ "a1" ++ ", " ++ "a2" ++ ", " ++ "a3" ++
        ", and " ++ "a4" ++ " is " ++ pyFixed2 (mkRat 3456 1000) ++ "°") ∧
      twoDecimals (pyFixed2 (mkRat 3456 1000))) :=
  ⟨(claim_C10 .ok engMeasure "a1" "a2" "a3" "a4" "d01" (mkRat 3456 1000)).1 rfl rfl,
   (claim_C10 .ok engMeasure "a1" "a2" "a3" "a4" "ang01" (mkRat 3456 1000)).2.1 rfl rfl,
   (claim_C10 .ok engMeasure "a1" "a2" "a3" "a4" "dih01" (mkRat 3456 1000)).2.2 rfl rfl⟩
